import Mathlib

/-!
Verification of the NECIM market-health engine and scraper.

This file gives a shallow embedding, in Lean 4, of the arithmetic core of
`market_health_engine.py` and `scraper.py`:

* the time-decay weighter `get_time_weight`,
* the FHWA apportionment table and the coverage extrapolation of
  `score_dot_pipeline_v2`,
* the seven indicator scoring functions and their trend derivations,
* the composite aggregator and the status banding of both the engine and the
  scraper fallback,
* the project-type keyword classifiers and the portal-stub record builder.

Python `float` arithmetic is modelled by exact rationals (`ℚ`); where the
source takes square roots (the input-cost volatility), real numbers (`ℝ`)
are used.  Decimal literals such as `0.8` denote the same mathematical value
in both worlds, so the modelled equalities are the intended readings of the
source formulas.  `round(x, n)` is modelled by exact round-half-to-even on
rationals, matching Python's bankers rounding on the mathematical value.
-/

/-- Round half to even, Python's `round` on an exact value. -/
def roundHalfEven (q : ℚ) : ℤ :=
  let f : ℤ := ⌊q⌋
  let r : ℚ := q - (f : ℚ)
  if r < 1/2 then f
  else if 1/2 < r then f + 1
  else if f % 2 = 0 then f else f + 1

/-- Python `round(x, 1)` on an exact rational value. -/
def roundTo1 (q : ℚ) : ℚ := (roundHalfEven (10 * q) : ℚ) / 10

/-- Python `round(x, 2)` on an exact rational value. -/
def roundTo2 (q : ℚ) : ℚ := (roundHalfEven (100 * q) : ℚ) / 100

/-! ### Date parsing: `datetime.strptime(project_date, '%Y-%m-%d')`

The `%Y-%m-%d` pattern requires exactly four year digits, one or two month
digits (value 1–12), one or two day digits, a full-string match, and a day
valid for the month (leap years included); `datetime` additionally requires
year ≥ 1.  A failed parse raises `ValueError`, which the caller turns into
the default weight, so the parse is modelled as an `Option`. -/

/-- Split a character list on `'-'` separators (accumulator-passing). -/
def splitDashGo : List Char → List Char → List (List Char)
  | cur, [] => [cur.reverse]
  | cur, c :: rest =>
    if c = '-' then cur.reverse :: splitDashGo [] rest
    else splitDashGo (c :: cur) rest

/-- Split a character list on `'-'`. -/
def splitDash (cs : List Char) : List (List Char) := splitDashGo [] cs

/-- Decimal value of a digit string. -/
def digitsVal (cs : List Char) : Nat :=
  cs.foldl (fun n c => 10 * n + (c.toNat - 48)) 0

/-- Gregorian leap year, as validated by `datetime`. -/
def isLeap (y : Nat) : Bool :=
  y % 4 = 0 && (y % 100 ≠ 0 || y % 400 = 0)

/-- Number of days in a month, as validated by `datetime`. -/
def daysInMonth (y m : Nat) : Nat :=
  if m = 2 then (if isLeap y then 29 else 28)
  else if m = 4 || m = 6 || m = 9 || m = 11 then 30
  else 31

/-- `datetime.strptime(s, '%Y-%m-%d')`: `some (year, month, day)` on the
strings the Python call accepts, `none` where it raises. -/
def parseDate (s : String) : Option (Nat × Nat × Nat) :=
  match splitDash s.data with
  | [ys, ms, ds] =>
    if ys.length = 4 ∧ ys.all Char.isDigit ∧
       (ms.length = 1 ∨ ms.length = 2) ∧ ms.all Char.isDigit ∧
       (ds.length = 1 ∨ ds.length = 2) ∧ ds.all Char.isDigit then
      let y := digitsVal ys
      let m := digitsVal ms
      let d := digitsVal ds
      if 1 ≤ y ∧ 1 ≤ m ∧ m ≤ 12 ∧ 1 ≤ d ∧ d ≤ daysInMonth y m
      then some (y, m, d) else none
    else none
  | _ => none

/-- Day number of a calendar date (days since 1970-01-01, the civil-from-days
bijection); subtracting two `datetime`s subtracts these day numbers. -/
def daysFromCivil (y m d : Nat) : Int :=
  let yy : Int := (y : Int) - (if m ≤ 2 then 1 else 0)
  let era : Int := Int.fdiv yy 400
  let yoe : Int := yy - era * 400
  let mp : Int := if 2 < m then (m : Int) - 3 else (m : Int) + 9
  let doy : Int := Int.fdiv (153 * mp + 2) 5 + (d : Int) - 1
  let doe : Int := yoe * 365 + Int.fdiv yoe 4 - Int.fdiv yoe 100 + doy
  era * 146097 + doe - 719468

/-- `(proj_date - reference_date).days`: the reference instant is a day
number plus a nonnegative second-of-day offset, the project date is a
midnight; Python's `timedelta.days` floors the difference. -/
def pyDays (projDay refDay : Int) (refSec : Nat) : Int :=
  Int.fdiv ((projDay - refDay) * 86400 - (refSec : Int)) 86400

/-- `get_time_weight(project_date, reference_date)` from
`market_health_engine.py`: horizon-bucket weight of a project date relative
to the reference instant `(refDay, refSec)`. -/
def get_time_weight (projectDate : Option String) (refDay : Int) (refSec : Nat) : ℚ :=
  match projectDate with
  | none => 0.5
  | some s =>
    if s = "" then 0.5
    else
      match parseDate s with
      | none => 0.5
      | some (y, m, d) =>
        let daysOut := pyDays (daysFromCivil y m d) refDay refSec
        if daysOut < 0 then 0.8
        else if daysOut ≤ 180 then 1.0
        else if daysOut ≤ 365 then 0.7
        else if daysOut ≤ 540 then 0.5
        else if daysOut ≤ 730 then 0.3
        else 0.1

/-- The signed day distance `get_time_weight` computes for a parseable date
string, `none` where the parse fails. -/
def daysOutOf (s : String) (refDay : Int) (refSec : Nat) : Option Int :=
  (parseDate s).map (fun ymd => pyDays (daysFromCivil ymd.1 ymd.2.1 ymd.2.2) refDay refSec)

theorem parseDate_empty : parseDate "" = none := by decide

theorem get_time_weight_parsed (s : String) (refDay : Int) (refSec : Nat)
    (y m d : Nat) (h : parseDate s = some (y, m, d)) :
    get_time_weight (some s) refDay refSec =
      (let daysOut := pyDays (daysFromCivil y m d) refDay refSec
       if daysOut < 0 then (0.8 : ℚ)
       else if daysOut ≤ 180 then 1.0
       else if daysOut ≤ 365 then 0.7
       else if daysOut ≤ 540 then 0.5
       else if daysOut ≤ 730 then 0.3
       else 0.1) := by
  have hs : s ≠ "" := by
    intro e
    rw [e, parseDate_empty] at h
    exact Option.noConfusion h
  simp only [get_time_weight, hs, if_false, h]

/-- **C1.** `get_time_weight` realises exactly the spec's horizon table
relative to the caller-supplied reference instant: with `d` the computed day
distance, a past date (`d < 0`) weighs 0.8, `0 ≤ d ≤ 180` weighs 1.0,
`181 ≤ d ≤ 365` weighs 0.7, `366 ≤ d ≤ 540` weighs 0.5, `541 ≤ d ≤ 730`
weighs 0.3, `d > 730` weighs 0.1, and a missing or unparsable date weighs
0.5. -/
theorem C1_time_weight_table (s : String) (refDay : Int) (refSec : Nat) (d : Int) :
    (daysOutOf s refDay refSec = some d →
      ((d < 0 → get_time_weight (some s) refDay refSec = 0.8) ∧
       (0 ≤ d → d ≤ 180 → get_time_weight (some s) refDay refSec = 1.0) ∧
       (180 < d → d ≤ 365 → get_time_weight (some s) refDay refSec = 0.7) ∧
       (365 < d → d ≤ 540 → get_time_weight (some s) refDay refSec = 0.5) ∧
       (540 < d → d ≤ 730 → get_time_weight (some s) refDay refSec = 0.3) ∧
       (730 < d → get_time_weight (some s) refDay refSec = 0.1))) ∧
    (daysOutOf s refDay refSec = none → get_time_weight (some s) refDay refSec = 0.5) ∧
    get_time_weight none refDay refSec = 0.5 := by
  refine ⟨?_, ?_, rfl⟩
  · intro hsome
    rcases hp : parseDate s with _ | ⟨y, m, dd⟩
    · rw [daysOutOf, hp] at hsome; exact Option.noConfusion hsome
    · rw [daysOutOf, hp, Option.map_some'] at hsome
      have hd : pyDays (daysFromCivil y m dd) refDay refSec = d :=
        Option.some.inj hsome
      have hw := get_time_weight_parsed s refDay refSec y m dd hp
      rw [hd] at hw
      refine ⟨fun h1 => ?_, fun h1 h2 => ?_, fun h1 h2 => ?_,
              fun h1 h2 => ?_, fun h1 h2 => ?_, fun h1 => ?_⟩ <;>
        · rw [hw]
          dsimp only
          split_ifs <;> first | rfl | omega
  · intro hnone
    rcases hp : parseDate s with _ | v
    · by_cases hs : s = ""
      · subst hs; rfl
      · simp only [get_time_weight, hs, if_false, hp]
    · rw [daysOutOf, hp] at hnone; exact Option.noConfusion hnone

/-- Witness for C1: relative to the reference instant 2025-01-01 00:00, a
project dated 30 days out (2025-01-31) weighs 1.0, 200 days out
(2025-07-20) weighs 0.7, 600 days out (2026-08-24) weighs 0.3, 900 days out
(2027-06-20) weighs 0.1, and an undated project weighs 0.5. -/
theorem C1_time_weight_table_witness :
    daysOutOf "2025-01-31" (daysFromCivil 2025 1 1) 0 = some 30 ∧
    get_time_weight (some "2025-01-31") (daysFromCivil 2025 1 1) 0 = 1.0 ∧
    daysOutOf "2025-07-20" (daysFromCivil 2025 1 1) 0 = some 200 ∧
    get_time_weight (some "2025-07-20") (daysFromCivil 2025 1 1) 0 = 0.7 ∧
    daysOutOf "2026-08-24" (daysFromCivil 2025 1 1) 0 = some 600 ∧
    get_time_weight (some "2026-08-24") (daysFromCivil 2025 1 1) 0 = 0.3 ∧
    daysOutOf "2027-06-20" (daysFromCivil 2025 1 1) 0 = some 900 ∧
    get_time_weight (some "2027-06-20") (daysFromCivil 2025 1 1) 0 = 0.1 ∧
    get_time_weight none (daysFromCivil 2025 1 1) 0 = 0.5 :=
  ⟨by decide,
   ((C1_time_weight_table "2025-01-31" (daysFromCivil 2025 1 1) 0 30).1
     (by decide)).2.1 (by decide) (by decide),
   by decide,
   ((C1_time_weight_table "2025-07-20" (daysFromCivil 2025 1 1) 0 200).1
     (by decide)).2.2.1 (by decide) (by decide),
   by decide,
   ((C1_time_weight_table "2026-08-24" (daysFromCivil 2025 1 1) 0 600).1
     (by decide)).2.2.2.2.1 (by decide) (by decide),
   by decide,
   ((C1_time_weight_table "2027-06-20" (daysFromCivil 2025 1 1) 0 900).1
     (by decide)).2.2.2.2.2 (by decide),
   (C1_time_weight_table "x" (daysFromCivil 2025 1 1) 0 0).2.2⟩

/-- **C10.** `get_time_weight` is total and range-bounded: on every input
(`None`, the empty string, any unparsable string, any date) its value is one
of 0.1, 0.3, 0.5, 0.7, 0.8, 1.0, and every missing or unparsable date yields
exactly 0.5. -/
theorem C10_time_weight_total (pd : Option String) (refDay : Int) (refSec : Nat) :
    (get_time_weight pd refDay refSec = 0.1 ∨
     get_time_weight pd refDay refSec = 0.3 ∨
     get_time_weight pd refDay refSec = 0.5 ∨
     get_time_weight pd refDay refSec = 0.7 ∨
     get_time_weight pd refDay refSec = 0.8 ∨
     get_time_weight pd refDay refSec = 1.0) ∧
    (pd = none → get_time_weight pd refDay refSec = 0.5) ∧
    (∀ s, pd = some s → parseDate s = none →
      get_time_weight pd refDay refSec = 0.5) := by
  refine ⟨?_, ?_, ?_⟩
  · rcases pd with _ | s
    · exact Or.inr (Or.inr (Or.inl rfl))
    · by_cases hs : s = ""
      · subst hs; exact Or.inr (Or.inr (Or.inl rfl))
      · rcases hp : parseDate s with _ | ⟨y, m, d⟩
        · simp only [get_time_weight, hs, if_false, hp]
          tauto
        · rw [get_time_weight_parsed s refDay refSec y m d hp]
          dsimp only
          split_ifs <;> tauto
  · rintro rfl; rfl
  · rintro s rfl hp
    by_cases hs : s = ""
    · subst hs; rfl
    · simp only [get_time_weight, hs, if_false, hp]

/-- Witness for C10 at a concretely unparsable string. -/
theorem C10_time_weight_total_witness :
    parseDate "not-a-date" = none ∧
    get_time_weight (some "not-a-date") 0 0 = 0.5 :=
  ⟨by decide,
   (C10_time_weight_total (some "not-a-date") 0 0).2.2 "not-a-date" rfl (by decide)⟩

/-! ### Project-type keyword classification (`scraper.py`)

Python lowercases the free text once and tests each keyword group with
substring containment (`k in text`).  The inputs and keywords are ASCII, so
lowercasing is modelled per character. -/

/-- ASCII lowering of a character list, modelling `str.lower()`. -/
def lowerChars (cs : List Char) : List Char := cs.map Char.toLower

/-- `leadEq n h`: `n` is an initial segment of `h`. -/
def leadEq : List Char → List Char → Bool
  | [], _ => true
  | _ :: _, [] => false
  | a :: as, b :: bs => a = b && leadEq as bs

/-- `hasSub h n`: `n` occurs contiguously in `h` (Python `n in h`). -/
def hasSub : List Char → List Char → Bool
  | [], needle => needle.isEmpty
  | c :: t, needle => leadEq needle (c :: t) || hasSub t needle

/-- `any(k in t for k in ks)`. -/
def anyKw (ks : List String) (t : List Char) : Bool :=
  ks.any (fun k => hasSub t k.data)

/-- Keyword groups of `classify_project_type`, in the order the chained
conditionals scan them. -/
def clsBridge : List String := ["bridge", "culvert", "span"]

def clsPavement : List String := ["paving", "resurfacing", "overlay", "pavement", "asphalt"]

def clsHighway : List String := ["i-93", "i-89", "i-95", "interstate", "turnpike"]

def clsSafety : List String := ["signal", "intersection", "safety"]

def clsMulti : List String := ["sidewalk", "pedestrian", "bike", "trail"]

/-- `classify_project_type(text)` from `scraper.py`. -/
def classify_project_type (text : String) : String :=
  let t := lowerChars text.data
  if anyKw clsBridge t then "Bridge"
  else if anyKw clsPavement t then "Pavement"
  else if anyKw clsHighway t then "Highway"
  else if anyKw clsSafety t then "Safety"
  else if anyKw clsMulti t then "Multimodal"
  else "Highway"

/-- Keyword groups of `standardize_project_type`, in the order the chained
conditionals scan them; the Highway category has no keyword group there (it
is the final catch-all). -/
def stdBridge : List String := ["bridge", "culvert", "span", "structural"]

def stdPavement : List String :=
  ["pav", "resurf", "overlay", "asphalt", "hma", "sma", "preservation", "mill", "crack seal"]

def stdSafety : List String :=
  ["signal", "intersection", "safety", "traffic", "guardrail", "rumble", "lighting"]

def stdOther : List String :=
  ["multimodal", "interchange", "environmental", "pedestrian", "bike", "trail",
   "sidewalk", "transit", "drainage", "storm"]

/-- `standardize_project_type(raw_type)` from `scraper.py`; a missing or
empty raw type defaults to Highway. -/
def standardize_project_type (rawType : String) : String :=
  if rawType = "" then "Highway"
  else
    let t := lowerChars rawType.data
    if anyKw stdBridge t then "Bridge"
    else if anyKw stdPavement t then "Pavement"
    else if anyKw stdSafety t then "Safety"
    else if anyKw stdOther t then "Other"
    else "Highway"

/-- Category of the first keyword group that matches `t`, scanned in list
order; `dflt` when none does. -/
def firstMatch : List (List String × String) → String → List Char → String
  | [], dflt, _ => dflt
  | g :: gs, dflt, t => if anyKw g.1 t then g.2 else firstMatch gs dflt t

/-- How many keyword groups of `groups` match `t`. -/
def countHits (groups : List (List String × String)) (t : List Char) : Nat :=
  (groups.filter (fun g => anyKw g.1 t)).length

/-- The spec's priority order Bridge > Pavement > Highway > Safety > last
category over the keyword groups of `classify_project_type` (its last
group carries the code's `Multimodal` label). -/
def classifyPriority : List (List String × String) :=
  [(clsBridge, "Bridge"), (clsPavement, "Pavement"), (clsHighway, "Highway"),
   (clsSafety, "Safety"), (clsMulti, "Multimodal")]

/-- The spec's priority order over the keyword groups of
`standardize_project_type`: Highway appears with its (empty) keyword group,
being the catch-all of that classifier. -/
def stdPriority : List (List String × String) :=
  [(stdBridge, "Bridge"), (stdPavement, "Pavement"), (([] : List String), "Highway"),
   (stdSafety, "Safety"), (stdOther, "Other")]

/-- The keyword groups of `standardize_project_type` in code order. -/
def stdGroups : List (List String × String) :=
  [(stdBridge, "Bridge"), (stdPavement, "Pavement"), (stdSafety, "Safety"),
   (stdOther, "Other")]

/-- **C7.** When the keywords of at least two categories are present, both
classifiers return the category of the first keyword group matched in the
priority order Bridge > Pavement > Highway > Safety > last. -/
theorem C7_classification_priority (text rawType : String) :
    (2 ≤ countHits classifyPriority (lowerChars text.data) →
      classify_project_type text =
        firstMatch classifyPriority "Highway" (lowerChars text.data)) ∧
    (2 ≤ countHits stdGroups (lowerChars rawType.data) →
      standardize_project_type rawType =
        firstMatch stdPriority "Highway" (lowerChars rawType.data)) := by
  constructor
  · intro _
    rfl
  · intro _
    by_cases hr : rawType = ""
    · subst hr
      rename_i h
      exact absurd h (by decide)
    · simp only [standardize_project_type, hr, if_false]
      rfl

/-- Witness for C7: "bridge paving" carries Bridge and Pavement keywords and
classifies as Bridge; raw type "signal interchange" carries Safety and Other
keywords and standardizes as Safety. -/
theorem C7_classification_priority_witness :
    2 ≤ countHits classifyPriority (lowerChars "bridge paving".data) ∧
    classify_project_type "bridge paving" =
      firstMatch classifyPriority "Highway" (lowerChars "bridge paving".data) ∧
    classify_project_type "bridge paving" = "Bridge" ∧
    2 ≤ countHits stdGroups (lowerChars "signal interchange".data) ∧
    standardize_project_type "signal interchange" =
      firstMatch stdPriority "Highway" (lowerChars "signal interchange".data) ∧
    standardize_project_type "signal interchange" = "Safety" :=
  ⟨by decide,
   (C7_classification_priority "bridge paving" "signal interchange").1 (by decide),
   by decide,
   by decide,
   (C7_classification_priority "bridge paving" "signal interchange").2 (by decide),
   by decide⟩

/-! ### Portal stubs and per-region fetch (`scraper.py`)

A scraped record is a Python dict; it is modelled as an association list of
field names to values, so that the presence or absence of a key is
expressible. -/

/-- A dict value of a scraped record: a string, Python `None`, or a list of
business-line tags. -/
inductive FVal where
  | str (s : String)
  | vnone
  | tags (ts : List String)
deriving DecidableEq

/-- One entry of `DOT_SOURCES`: display name, public portal URL, and the
value of its `parser` key (`"active"` or `"stub"`). -/
structure SourceCfg where
  name : String
  portalUrl : String
  parserMode : String
deriving DecidableEq

/-- The `DOT_SOURCES` table of `scraper.py`, in dict order (auxiliary
source-specific URL keys, consumed only by the external page producers, are
omitted). -/
def DOT_SOURCES : List (String × SourceCfg) :=
  [("MA", ⟨"MassDOT", "https://hwy.massdot.state.ma.us/webapps/const/statusReport.asp", "active"⟩),
   ("ME", ⟨"MaineDOT", "https://www.maine.gov/dot/major-projects/cap", "active"⟩),
   ("NH", ⟨"NHDOT", "https://www.dot.nh.gov/doing-business-nhdot/contractors/invitation-bid", "active"⟩),
   ("VT", ⟨"VTrans", "https://vtrans.vermont.gov/contract-admin/bids-requests/construction-contracting", "active"⟩),
   ("NY", ⟨"NYSDOT", "https://www.dot.ny.gov/doing-business/opportunities/const-highway", "stub"⟩),
   ("RI", ⟨"RIDOT", "https://www.dot.ri.gov/ridotbidding/", "active"⟩),
   ("CT", ⟨"CTDOT", "https://portal.ct.gov/dot/business/contracting-project-awards", "active"⟩),
   ("PA", ⟨"PennDOT", "https://www.ecms.penndot.pa.gov/ECMS/", "active"⟩)]

/-- The source derives a record id as a truncated MD5 hex digest of `text`;
the digest value is opaque to every claim settled here (only the other
fields are inspected), so the digest function is modelled as the identity on
its input text. -/
def generate_id (text : String) : String := text

/-- `create_portal_stub(state)` from `scraper.py`, with the `DOT_SOURCES`
row for `state` (which the source looks up by key) passed explicitly. -/
def create_portal_stub (state : String) (cfg : SourceCfg) : List (String × FVal) :=
  [("id", .str (generate_id (state ++ "-portal"))),
   ("state", .str state),
   ("project_id", .vnone),
   ("description", .str (cfg.name ++ " Bid Schedule - Visit portal for current lettings")),
   ("cost_low", .vnone),
   ("cost_high", .vnone),
   ("cost_display", .str "See Portal"),
   ("ad_date", .vnone),
   ("let_date", .vnone),
   ("project_type", .vnone),
   ("location", .vnone),
   ("district", .vnone),
   ("url", .str cfg.portalUrl),
   ("source", .str cfg.name),
   ("business_lines", .tags ["highway"])]

/-- One iteration of the `fetch_dot_lettings` loop for region `state`:
`outcome` is `some rows` when the region's active page-specific producer
returned rows, and `none` when every provider attempt failed — the producer
raised (the `except` branch) or no producer is active for the state (the
`else` branch); in both failing cases the single portal stub is delivered
for the region. -/
def fetch_state_lettings (state : String) (cfg : SourceCfg)
    (outcome : Option (List (List (String × FVal)))) : List (List (String × FVal)) :=
  if cfg.parserMode = "active" ∧ state ∈ ["MA", "ME", "NH", "CT", "VT", "RI", "PA"] then
    match outcome with
    | some rows => rows
    | none => [create_portal_stub state cfg]
  else [create_portal_stub state cfg]

/-- Counterexample to C8 as stated: when every provider attempt for NY fails
the delivered record is the portal stub, but that stub carries no `status`
key at all — in particular it is not flagged `status=Verify`. -/
theorem C8_counterexample :
    fetch_state_lettings "NY"
        ⟨"NYSDOT", "https://www.dot.ny.gov/doing-business/opportunities/const-highway", "stub"⟩
        none =
      [create_portal_stub "NY"
        ⟨"NYSDOT", "https://www.dot.ny.gov/doing-business/opportunities/const-highway", "stub"⟩] ∧
    List.lookup "status"
        (create_portal_stub "NY"
          ⟨"NYSDOT", "https://www.dot.ny.gov/doing-business/opportunities/const-highway", "stub"⟩) =
      none := by
  constructor
  · rfl
  · rfl

/-- **C8 (amended).** Total provider exhaustion for a region is surfaced as
data: the record set delivered for the region is exactly one portal-stub
record whose `cost_low` and `cost_high` fields are null; the stub carries no
`status` field (no record of the scraper does), its verify-like marking
being the `"See Portal"` cost display. -/
theorem C8_portal_stub (state : String) (cfg : SourceCfg) :
    fetch_state_lettings state cfg none = [create_portal_stub state cfg] ∧
    (fetch_state_lettings state cfg none).length = 1 ∧
    List.lookup "cost_low" (create_portal_stub state cfg) = some FVal.vnone ∧
    List.lookup "cost_high" (create_portal_stub state cfg) = some FVal.vnone ∧
    List.lookup "cost_display" (create_portal_stub state cfg) = some (FVal.str "See Portal") ∧
    List.lookup "status" (create_portal_stub state cfg) = none := by
  have hfetch : fetch_state_lettings state cfg none = [create_portal_stub state cfg] := by
    unfold fetch_state_lettings
    split_ifs <;> rfl
  exact ⟨hfetch, by rw [hfetch]; rfl, rfl, rfl, rfl, rfl⟩

/-! ### DOT pipeline v2: FHWA apportionment and coverage extrapolation
(`score_dot_pipeline_v2` in `market_health_engine.py`) -/

/-- A project dict as consumed by `score_dot_pipeline_v2`: its state, its
`cost_low` (nullable), and its optional let/ad dates. -/
structure Project where
  state : String
  cost_low : Option ℚ
  let_date : Option String
  ad_date : Option String

/-- `proj.get('cost_low') or 0`: a missing cost counts as zero (and a zero
cost is its own `or`-fallback). -/
def costOf (p : Project) : ℚ := p.cost_low.getD 0

/-- `proj.get('let_date') or proj.get('ad_date')`: the let date is
preferred; a missing or empty (falsy) let date falls back to the ad date. -/
def projDateOf (p : Project) : Option String :=
  match p.let_date with
  | some s => if s = "" then p.ad_date else some s
  | none => p.ad_date

/-- `FHWA_APPORTIONMENTS` (FY2024 dollars), in dict order. -/
def FHWA_APPORTIONMENTS : List (String × ℚ) :=
  [("NY", 1829000000), ("PA", 1901000000), ("MA", 719000000), ("CT", 558000000),
   ("NH", 193000000), ("ME", 213000000), ("VT", 200000000), ("RI", 216000000)]

/-- `FHWA_8_STATE_TOTAL = sum(FHWA_APPORTIONMENTS.values())`. -/
def FHWA_8_STATE_TOTAL : ℚ := (FHWA_APPORTIONMENTS.map Prod.snd).sum

/-- `STATE_RATIOS.get(s, 0)`: a state's share of the eight-state FHWA
apportionment total, zero for an unknown key. -/
def ratioOfState (s : String) : ℚ :=
  match FHWA_APPORTIONMENTS.lookup s with
  | some amt => amt / FHWA_8_STATE_TOTAL
  | none => 0

/-- The eight region keys of the apportionment table. -/
def knownStates : List String := ["NY", "PA", "MA", "CT", "NH", "ME", "VT", "RI"]

/-- Key-insertion pass behind `state_raw_totals`: left fold over the
projects, recording each state the first time it contributes a positive
cost. -/
def statesWithDataGo : List String → List Project → List String
  | acc, [] => acc
  | acc, p :: ps =>
    statesWithDataGo
      (if 0 < costOf p then
        (if acc.contains p.state then acc else acc ++ [p.state])
       else acc) ps

/-- `state_raw_totals.keys()`: the states that contributed data (some
project with positive cost), in first-contribution order. -/
def statesWithData (ps : List Project) : List String := statesWithDataGo [] ps

/-- `total_raw`: the captured raw total, summing the positive project
costs. -/
def total_raw (ps : List Project) : ℚ :=
  (ps.map (fun p => if 0 < costOf p then costOf p else 0)).sum

/-- `total_weighted`: the captured time-weighted total. -/
def total_weighted (refDay : Int) (refSec : Nat) (ps : List Project) : ℚ :=
  (ps.map (fun p =>
    if 0 < costOf p then costOf p * get_time_weight (projDateOf p) refDay refSec
    else 0)).sum

/-- `captured_ratio = sum(STATE_RATIOS.get(s, 0) for s in
state_raw_totals.keys())`. -/
def capturedCoverage (ps : List Project) : ℚ :=
  ((statesWithData ps).map ratioOfState).sum

/-- `extrapolated_raw`: the raw total scaled up by the captured coverage
when that coverage is positive, the raw total unchanged otherwise. -/
def extrapolated_raw (ps : List Project) : ℚ :=
  if 0 < capturedCoverage ps then total_raw ps / capturedCoverage ps
  else total_raw ps

/-- `extrapolated_weighted`: the analogous extrapolation of the
time-weighted total. -/
def extrapolated_weighted (refDay : Int) (refSec : Nat) (ps : List Project) : ℚ :=
  if 0 < capturedCoverage ps then total_weighted refDay refSec ps / capturedCoverage ps
  else total_weighted refDay refSec ps

/-- **C2.** Extrapolation identity: whenever the captured coverage ratio
equals 1, the extrapolated total of `score_dot_pipeline_v2` equals the
captured raw total exactly. -/
theorem C2_extrapolation_identity (ps : List Project)
    (h : capturedCoverage ps = 1) : extrapolated_raw ps = total_raw ps := by
  unfold extrapolated_raw
  rw [h]
  norm_num

/-- A full-coverage input: one positively-costed project in each of the
eight states. -/
def fullCoverageProjects : List Project :=
  [⟨"NY", some 1000000, none, none⟩, ⟨"PA", some 2000000, none, none⟩,
   ⟨"MA", some 3000000, none, none⟩, ⟨"CT", some 1500000, none, none⟩,
   ⟨"NH", some 2500000, none, none⟩, ⟨"ME", some 1200000, none, none⟩,
   ⟨"VT", some 1800000, none, none⟩, ⟨"RI", some 1100000, none, none⟩]

theorem ratioOfState_NY : ratioOfState "NY" = 1829000000 / FHWA_8_STATE_TOTAL := rfl

theorem ratioOfState_PA : ratioOfState "PA" = 1901000000 / FHWA_8_STATE_TOTAL := rfl

theorem ratioOfState_MA : ratioOfState "MA" = 719000000 / FHWA_8_STATE_TOTAL := rfl

theorem ratioOfState_CT : ratioOfState "CT" = 558000000 / FHWA_8_STATE_TOTAL := rfl

theorem ratioOfState_NH : ratioOfState "NH" = 193000000 / FHWA_8_STATE_TOTAL := rfl

theorem ratioOfState_ME : ratioOfState "ME" = 213000000 / FHWA_8_STATE_TOTAL := rfl

theorem ratioOfState_VT : ratioOfState "VT" = 200000000 / FHWA_8_STATE_TOTAL := rfl

theorem ratioOfState_RI : ratioOfState "RI" = 216000000 / FHWA_8_STATE_TOTAL := rfl

theorem FHWA_total_eq : FHWA_8_STATE_TOTAL = 5829000000 := by
  norm_num [FHWA_8_STATE_TOTAL, FHWA_APPORTIONMENTS]

theorem fullCoverage_ratio_eq_one : capturedCoverage fullCoverageProjects = 1 := by
  have hs : statesWithData fullCoverageProjects =
      ["NY", "PA", "MA", "CT", "NH", "ME", "VT", "RI"] := by decide
  unfold capturedCoverage
  rw [hs]
  rw [List.map_cons, List.map_cons, List.map_cons, List.map_cons,
      List.map_cons, List.map_cons, List.map_cons, List.map_cons, List.map_nil]
  rw [ratioOfState_NY, ratioOfState_PA, ratioOfState_MA, ratioOfState_CT,
      ratioOfState_NH, ratioOfState_ME, ratioOfState_VT, ratioOfState_RI,
      FHWA_total_eq]
  norm_num

/-- Witness for C2: with all eight states reporting, the captured coverage
ratio is exactly 1 and the extrapolated total equals the raw total. -/
theorem C2_extrapolation_identity_witness :
    capturedCoverage fullCoverageProjects = 1 ∧
    extrapolated_raw fullCoverageProjects = total_raw fullCoverageProjects :=
  ⟨fullCoverage_ratio_eq_one,
   C2_extrapolation_identity fullCoverageProjects fullCoverage_ratio_eq_one⟩

theorem statesWithDataGo_mem_acc (ps : List Project) :
    ∀ acc s, s ∈ acc → s ∈ statesWithDataGo acc ps := by
  induction ps with
  | nil => intro acc s h; exact h
  | cons p ps ih =>
    intro acc s h
    rw [statesWithDataGo]
    apply ih
    split_ifs with h1 h2
    · exact h
    · exact List.mem_append_left _ h
    · exact h

theorem statesWithDataGo_mem_of (ps : List Project) :
    ∀ acc, ∀ p ∈ ps, 0 < costOf p → p.state ∈ statesWithDataGo acc ps := by
  induction ps with
  | nil => intro acc p h; cases h
  | cons q ps ih =>
    intro acc p hmem hc
    rw [statesWithDataGo]
    rcases List.mem_cons.mp hmem with rfl | hmem'
    · apply statesWithDataGo_mem_acc
      split_ifs with h1
      · simpa using h1
      · exact List.mem_append_right _ (List.mem_singleton_self _)
    · exact ih _ p hmem' hc

theorem lookup_val_mem (l : List (String × ℚ)) (a : String) (b : ℚ)
    (h : List.lookup a l = some b) : b ∈ l.map Prod.snd := by
  induction l with
  | nil => simp [List.lookup] at h
  | cons kv t ih =>
    obtain ⟨k, v⟩ := kv
    rw [List.lookup] at h
    cases hbe : a == k with
    | true =>
      rw [hbe] at h
      simp only [List.map_cons, List.mem_cons]
      exact Or.inl (Option.some.inj h).symm
    | false =>
      rw [hbe] at h
      exact List.mem_cons_of_mem _ (ih h)

theorem ratioOfState_nonneg (s : String) : 0 ≤ ratioOfState s := by
  rcases h : FHWA_APPORTIONMENTS.lookup s with _ | amt
  · simp [ratioOfState, h]
  · have hmem : amt ∈ FHWA_APPORTIONMENTS.map Prod.snd := lookup_val_mem _ _ _ h
    have hamt : 0 ≤ amt := by
      fin_cases hmem <;> norm_num
    have htot : 0 < FHWA_8_STATE_TOTAL := by rw [FHWA_total_eq]; norm_num
    simp only [ratioOfState, h]
    exact div_nonneg hamt htot.le

theorem ratioOfState_pos_of_known (s : String) (h : s ∈ knownStates) :
    0 < ratioOfState s := by
  have htot : (0:ℚ) < 5829000000 := by norm_num
  fin_cases h
  · rw [ratioOfState_NY, FHWA_total_eq]; norm_num
  · rw [ratioOfState_PA, FHWA_total_eq]; norm_num
  · rw [ratioOfState_MA, FHWA_total_eq]; norm_num
  · rw [ratioOfState_CT, FHWA_total_eq]; norm_num
  · rw [ratioOfState_NH, FHWA_total_eq]; norm_num
  · rw [ratioOfState_ME, FHWA_total_eq]; norm_num
  · rw [ratioOfState_VT, FHWA_total_eq]; norm_num
  · rw [ratioOfState_RI, FHWA_total_eq]; norm_num

/-- **C3.** Degenerate-coverage safety: on any project set over the known
regions whose captured coverage ratio is 0, no region contributed data, so
the raw total is 0, and the extrapolation division is skipped — the raw
(zero) total is returned unchanged as the extrapolated total. -/
theorem C3_degenerate_coverage (ps : List Project)
    (hknown : ∀ p ∈ ps, p.state ∈ knownStates)
    (h0 : capturedCoverage ps = 0) :
    total_raw ps = 0 ∧ extrapolated_raw ps = total_raw ps := by
  have hnone : ∀ p ∈ ps, ¬ (0 < costOf p) := by
    intro p hp hc
    have hmem : p.state ∈ statesWithData ps := statesWithDataGo_mem_of ps [] p hp hc
    have hr : 0 < ratioOfState p.state := ratioOfState_pos_of_known _ (hknown p hp)
    have hnn : ∀ x ∈ (statesWithData ps).map ratioOfState, (0:ℚ) ≤ x := by
      intro x hx
      obtain ⟨s', _, rfl⟩ := List.mem_map.mp hx
      exact ratioOfState_nonneg s'
    have hle : ratioOfState p.state ≤ ((statesWithData ps).map ratioOfState).sum :=
      List.single_le_sum hnn _ (List.mem_map_of_mem _ hmem)
    rw [capturedCoverage] at h0
    linarith
  constructor
  · unfold total_raw
    apply List.sum_eq_zero
    intro x hx
    obtain ⟨p, hp, rfl⟩ := List.mem_map.mp hx
    rw [if_neg (hnone p hp)]
  · unfold extrapolated_raw
    rw [h0]
    norm_num

/-- A degenerate input: one known-region project with no cost data. -/
def noCoverageProjects : List Project := [⟨"VT", none, none, none⟩]

theorem noCoverage_ratio_eq_zero : capturedCoverage noCoverageProjects = 0 := by
  have hs : statesWithData noCoverageProjects = [] := by decide
  unfold capturedCoverage
  rw [hs]
  rfl

/-- Witness for C3: a costless single-region input has coverage 0, raw
total 0, and the extrapolated total equals the raw total. -/
theorem C3_degenerate_coverage_witness :
    (∀ p ∈ noCoverageProjects, p.state ∈ knownStates) ∧
    capturedCoverage noCoverageProjects = 0 ∧
    total_raw noCoverageProjects = 0 ∧
    extrapolated_raw noCoverageProjects = total_raw noCoverageProjects :=
  ⟨by decide, noCoverage_ratio_eq_zero,
   (C3_degenerate_coverage noCoverageProjects (by decide) noCoverage_ratio_eq_zero).1,
   (C3_degenerate_coverage noCoverageProjects (by decide) noCoverage_ratio_eq_zero).2⟩

/-! ### Composite aggregator and status banding -/

/-- The engine's `WEIGHTS` table, in dict order. -/
def WEIGHTS : List (String × ℚ) :=
  [("dot_pipeline", 0.15), ("housing_permits", 0.10), ("construction_spending", 0.08),
   ("migration", 0.07), ("construction_employment", 0.08), ("input_cost", 0.07),
   ("infrastructure_funding", 0.05)]

/-- `round(weighted_sum / total_weight, 1)` over a weight table: the
composite of `calculate_market_health` as a function of the per-indicator
scores. -/
def overallScoreWith (weights : List (String × ℚ)) (scores : String → ℚ) : ℚ :=
  roundTo1 ((weights.map (fun kw => scores kw.1 * kw.2)).sum / (weights.map Prod.snd).sum)

/-- The engine's composite score over its `WEIGHTS`. -/
def overall_score (scores : String → ℚ) : ℚ := overallScoreWith WEIGHTS scores

/-- The engine's status banding (`market_health_engine.calculate_market_health`). -/
def overall_status (score : ℚ) : String :=
  if 7.6 ≤ score then "growth"
  else if 6.1 ≤ score then "stable"
  else if 5.0 ≤ score then "watchlist"
  else "defensive"

/-- The scraper fallback's status banding (`scraper.calculate_market_health`). -/
def scraper_overall_status (overall : ℚ) : String :=
  if 7.5 ≤ overall then "growth"
  else if 6.0 ≤ overall then "stable"
  else "watchlist"

/-- The status table exactly as the spec words it: Growth ≥ 7.6,
Stable ≥ 6.1, Watchlist ≥ 5.0, else Defensive (in the code's lowercase
tag spelling). -/
def spec_status_table (score : ℚ) : String :=
  if 7.6 ≤ score then "growth"
  else if 6.1 ≤ score then "stable"
  else if 5.0 ≤ score then "watchlist"
  else "defensive"

/-- Counterexample to C4 as stated: the scraper fallback's banding does not
follow the spec's threshold table — at score 4.9 it says watchlist where
the table says defensive, and at 7.5 it says growth where the table says
stable. -/
theorem C4_counterexample :
    scraper_overall_status 4.9 = "watchlist" ∧ spec_status_table 4.9 = "defensive" ∧
    scraper_overall_status 7.5 = "growth" ∧ spec_status_table 7.5 = "stable" := by
  refine ⟨?_, ?_, ?_, ?_⟩ <;> norm_num [scraper_overall_status, spec_status_table]

/-- **C4 (amended).** The engine's composite aggregator bands with exactly
the spec's threshold table (Growth ≥ 7.6, Stable ≥ 6.1, Watchlist ≥ 5.0,
else Defensive); the scraper's fallback instead bands with Growth ≥ 7.5,
Stable ≥ 6.0, else Watchlist, and never outputs Defensive. -/
theorem C4_status_banding (score : ℚ) :
    overall_status score = spec_status_table score ∧
    (7.5 ≤ score → scraper_overall_status score = "growth") ∧
    (6.0 ≤ score → score < 7.5 → scraper_overall_status score = "stable") ∧
    (score < 6.0 → scraper_overall_status score = "watchlist") ∧
    scraper_overall_status score ≠ "defensive" := by
  refine ⟨rfl, ?_, ?_, ?_, ?_⟩
  · intro h
    rw [scraper_overall_status, if_pos h]
  · intro h1 h2
    rw [scraper_overall_status, if_neg (by linarith), if_pos h1]
  · intro h
    rw [scraper_overall_status, if_neg (by linarith), if_neg (by linarith)]
  · rw [scraper_overall_status]
    split_ifs <;> decide

/-- Witness for C4 at scores 8, 6.5 and 4. -/
theorem C4_status_banding_witness :
    overall_status 8 = spec_status_table 8 ∧
    (7.5:ℚ) ≤ 8 ∧ scraper_overall_status 8 = "growth" ∧
    (6.0:ℚ) ≤ 6.5 ∧ (6.5:ℚ) < 7.5 ∧ scraper_overall_status 6.5 = "stable" ∧
    (4:ℚ) < 6.0 ∧ scraper_overall_status 4 = "watchlist" :=
  ⟨(C4_status_banding 8).1, by norm_num, (C4_status_banding 8).2.1 (by norm_num),
   by norm_num, by norm_num,
   (C4_status_banding 6.5).2.2.1 (by norm_num) (by norm_num),
   by norm_num, (C4_status_banding 4).2.2.2.1 (by norm_num)⟩

/-- **C5.** Composite scale-invariance: for any assignment of the seven
indicator scores and any positive constant `c`, scaling every indicator
weight by `c` leaves the composite score (weighted sum over total weight,
rounded to one decimal) unchanged. -/
theorem C5_scale_invariance (scores : String → ℚ) (c : ℚ) (hc : 0 < c) :
    overallScoreWith (WEIGHTS.map (fun kw => (kw.1, c * kw.2))) scores =
      overallScoreWith WEIGHTS scores := by
  unfold overallScoreWith
  congr 1
  have hnum :
      ((WEIGHTS.map (fun kw => (kw.1, c * kw.2))).map (fun kw => scores kw.1 * kw.2)).sum =
        c * ((WEIGHTS.map (fun kw => scores kw.1 * kw.2)).sum) := by
    simp [WEIGHTS]
    ring
  have hden :
      ((WEIGHTS.map (fun kw => (kw.1, c * kw.2))).map Prod.snd).sum =
        c * ((WEIGHTS.map Prod.snd).sum) := by
    simp [WEIGHTS]
    ring
  rw [hnum, hden, mul_div_mul_left _ _ (ne_of_gt hc)]

/-- Witness for C5 with all scores 7 and the scaling constant 2. -/
theorem C5_scale_invariance_witness :
    (0:ℚ) < 2 ∧
    overallScoreWith (WEIGHTS.map (fun kw => (kw.1, 2 * kw.2))) (fun _ => 7) =
      overallScoreWith WEIGHTS (fun _ => 7) :=
  ⟨by norm_num, C5_scale_invariance (fun _ => 7) 2 (by norm_num)⟩

/-! ### Indicator scorers (`market_health_engine.py`)

The YoY scorers are exact-rational; the input-cost family takes a standard
deviation (a square root), so it is modelled over the reals. -/

theorem roundHalfEven_intCast (n : ℤ) : roundHalfEven (n : ℚ) = n := by
  unfold roundHalfEven
  rw [Int.floor_intCast]
  norm_num

theorem roundTo1_of_mul_eq (q : ℚ) (n : ℤ) (h : 10 * q = (n : ℚ)) :
    roundTo1 q = (n : ℚ) / 10 := by
  unfold roundTo1
  rw [h, roundHalfEven_intCast]

/-- `score_housing_permits(current_total, year_ago_total)`:
`(score, action, yoy percent)`. -/
def score_housing_permits (current_total year_ago_total : ℚ) : ℚ × String × ℚ :=
  if year_ago_total ≤ 0 then (5.0, "Monitor trends", 0.0)
  else
    let yoy_change := (current_total - year_ago_total) / year_ago_total
    let raw_score := 5.0 + yoy_change * 20
    let score := max 0 (min 10 raw_score)
    let action :=
      if 0.07 < yoy_change then "Ready-mix expansion opportunity"
      else if 0 < yoy_change then "Monitor trends"
      else if -0.10 < yoy_change then "Selective investment"
      else "Consolidate plants"
    (roundTo1 score, action, roundTo1 (yoy_change * 100))

/-- `score_construction_spending(current_value, year_ago_value)`. -/
def score_construction_spending (current_value year_ago_value : ℚ) : ℚ × String × ℚ :=
  if year_ago_value ≤ 0 then (5.0, "Selective investment", 0.0)
  else
    let yoy_change := (current_value - year_ago_value) / year_ago_value
    let score := max 0 (min 10 (5.0 + yoy_change * 15))
    let action :=
      if 0.10 < yoy_change then "All-segment growth"
      else if 0 < yoy_change then "Selective investment"
      else "Cost focus"
    (roundTo1 score, action, roundTo1 (yoy_change * 100))

/-- `score_construction_employment(current_total, year_ago_total)`. -/
def score_construction_employment (current_total year_ago_total : ℚ) : ℚ × String × ℚ :=
  if year_ago_total ≤ 0 then (5.0, "Stable operations", 0.0)
  else
    let yoy_change := (current_total - year_ago_total) / year_ago_total
    let score := max 0 (min 10 (5.0 + yoy_change * 25))
    let action :=
      if 7 ≤ score then "Expand workforce"
      else if 4 ≤ score then "Stable operations"
      else "Reduce staff"
    (roundTo1 score, action, roundTo1 (yoy_change * 100))

/-- `score_migration(population_data)` over the (population, change) pairs
of the population dict.  Rational division is total where Python would
raise `ZeroDivisionError` on `population - change = 0`; every path proved
about below keeps the source's guarded behaviour. -/
def score_migration (population_data : List (ℚ × ℚ)) : ℚ × String × ℚ :=
  let total_pop := (population_data.map Prod.fst).sum
  if total_pop ≤ 0 then (5.0, "Maintain footprint", 0.0)
  else
    let weighted_change :=
      ((population_data.map (fun d => d.2 / (d.1 - d.2) * d.1)).sum) / total_pop
    let score := max 0 (min 10 (5.0 + weighted_change * 10))
    let action :=
      if 0.01 < weighted_change then "Geographic expansion"
      else if -0.01 < weighted_change then "Maintain footprint"
      else "Market consolidation"
    (roundTo1 score, action, roundTo2 (weighted_change * 100))

/-- The trend thresholds `calculate_market_health` applies to the housing
permits YoY percentage. -/
def permits_trend (yoyPct : ℚ) : String :=
  if 3 < yoyPct then "up" else if yoyPct < -3 then "down" else "stable"

/-- The trend thresholds for construction spending. -/
def spending_trend (yoyPct : ℚ) : String :=
  if 2 < yoyPct then "up" else if yoyPct < -2 then "down" else "stable"

/-- The trend thresholds for construction employment. -/
def employment_trend (yoyPct : ℚ) : String :=
  if 2 < yoyPct then "up" else if yoyPct < -2 then "down" else "stable"

/-- The trend thresholds for migration. -/
def migration_trend (pct : ℚ) : String :=
  if 0.3 < pct then "up" else if pct < -0.3 then "down" else "stable"

/-- Round half to even on a real value. -/
noncomputable def roundHalfEvenR (x : ℝ) : ℤ :=
  let f : ℤ := ⌊x⌋
  let r : ℝ := x - (f : ℝ)
  if r < 1/2 then f
  else if 1/2 < r then f + 1
  else if f % 2 = 0 then f else f + 1

/-- Python `round(x, 1)` on a real value. -/
noncomputable def roundTo1R (x : ℝ) : ℝ := (roundHalfEvenR (10 * x) : ℝ) / 10

/-- Python `round(x, 2)` on a real value. -/
noncomputable def roundTo2R (x : ℝ) : ℝ := (roundHalfEvenR (100 * x) : ℝ) / 100

theorem roundHalfEvenR_intCast (n : ℤ) : roundHalfEvenR (n : ℝ) = n := by
  unfold roundHalfEvenR
  rw [Int.floor_intCast]
  norm_num

/-- `statistics.mean`. -/
noncomputable def pyMean (xs : List ℝ) : ℝ := xs.sum / xs.length

/-- `statistics.stdev`: the sample standard deviation. -/
noncomputable def pyStdev (xs : List ℝ) : ℝ :=
  Real.sqrt (((xs.map (fun x => (x - pyMean xs) ^ 2)).sum) / (xs.length - 1))

/-- `score_input_cost_single(price_history, baseline)`: the raw (unclamped)
stability score of one fuel series. -/
noncomputable def score_input_cost_single (price_history : List ℝ) (baseline : ℝ) : ℝ :=
  if price_history.length < 2 then 5.0
  else
    let current_price := price_history.getLast?.getD 0
    let avg_price := pyMean price_history
    let std_dev := if 1 < price_history.length then pyStdev price_history else 0
    let priceRel := current_price / baseline
    let volatility := if 0 < avg_price then std_dev / avg_price else 0
    (1 / (priceRel * (1 + volatility))) * 10

/-- `score_input_cost(fuel_prices)` as `(score, action)`: the 60/40 blend
of the gasoline and diesel sub-scores against their baselines 3.20 and
4.00, clamped and rounded (the diagnostic price-breakdown dict of the
source is display-only and omitted). -/
noncomputable def score_input_cost (gas_prices diesel_prices : List ℝ) : ℝ × String :=
  let gas_score := if gas_prices = [] then 5.0 else score_input_cost_single gas_prices 3.20
  let diesel_score := if diesel_prices = [] then 5.0 else score_input_cost_single diesel_prices 4.00
  let combined_score := gas_score * 0.60 + diesel_score * 0.40
  let score := max 0 (min 10 combined_score)
  let action :=
    if 7 ≤ score then "Lock contracts"
    else if 4 ≤ score then "Hedge 6 months"
    else "Pass-through only"
  (roundTo1R score, action)

/-- `score_input_cost_legacy(price_history)`: diesel-only legacy scorer;
its short-history default is `(5.5, 'Hedge 6 months', 4.00)`. -/
noncomputable def score_input_cost_legacy (price_history : List ℝ) : ℝ × String × ℝ :=
  if price_history.length < 2 then (5.5, "Hedge 6 months", 4.00)
  else
    let baseline_price : ℝ := 4.00
    let current_price := price_history.getLast?.getD 0
    let avg_price := pyMean price_history
    let std_dev := if 1 < price_history.length then pyStdev price_history else 0
    let priceRel := current_price / baseline_price
    let volatility := if 0 < avg_price then std_dev / avg_price else 0
    let score := max 0 (min 10 ((1 / (priceRel * (1 + volatility))) * 10))
    let action :=
      if 7 ≤ score then "Lock contracts"
      else if 4 ≤ score then "Hedge 6 months"
      else "Pass-through only"
    (roundTo1R score, action, roundTo2R current_price)

/-- The input-cost trend of `calculate_market_health`: weighted current
price against four weeks earlier, `stable` whenever either series is
shorter than five observations. -/
noncomputable def input_cost_trend (gas_prices diesel_prices : List ℝ) : String :=
  if 5 ≤ gas_prices.length ∧ 5 ≤ diesel_prices.length then
    let current_weighted :=
      (gas_prices.getLast?.getD 0) * 0.60 + (diesel_prices.getLast?.getD 0) * 0.40
    let past_weighted :=
      (gas_prices.getD (gas_prices.length - 5) 0) * 0.60 +
        (diesel_prices.getD (diesel_prices.length - 5) 0) * 0.40
    if current_weighted < past_weighted - 0.08 then "up"
    else if past_weighted + 0.08 < current_weighted then "down"
    else "stable"
  else "stable"

theorem score_housing_permits_scenario :
    score_housing_permits 16050 15000 = (6.4, "Monitor trends", 7) := by
  unfold score_housing_permits
  rw [if_neg (by norm_num : ¬(15000:ℚ) ≤ 0)]
  have hyoy : ((16050:ℚ) - 15000) / 15000 = 7/100 := by norm_num
  dsimp only
  rw [hyoy]
  rw [show max 0 (min 10 ((5.0:ℚ) + 7/100 * 20)) = 32/5 by
    rw [min_def, max_def]; norm_num]
  rw [roundTo1_of_mul_eq (32/5) 64 (by norm_num),
      roundTo1_of_mul_eq (7/100 * 100) 70 (by norm_num)]
  rw [if_neg (by norm_num : ¬(0.07:ℚ) < 7/100), if_pos (by norm_num : (0:ℚ) < 7/100)]
  norm_num

/-- Counterexample to C6 as stated: at `current=16050, priorYear=15000` the
reported YoY percentage is 7.0 and the engine's trend for it is `up`
(7.0 > 3, the engine's up-threshold), not `Stable`. -/
theorem C6_counterexample :
    (score_housing_permits 16050 15000).2.2 = 7 ∧
    permits_trend ((score_housing_permits 16050 15000).2.2) = "up" ∧
    permits_trend ((score_housing_permits 16050 15000).2.2) ≠ "stable" := by
  rw [score_housing_permits_scenario]
  refine ⟨rfl, ?_, ?_⟩
  · unfold permits_trend
    rw [if_pos (by norm_num : (3:ℚ) < 7)]
  · unfold permits_trend
    rw [if_pos (by norm_num : (3:ℚ) < 7)]
    decide

/-- **C6 (amended).** Housing-permit scenario: `current=16050`,
`priorYear=15000` gives `yoyChange = 0.07`, raw score `5.0 + 0.07×20 =
6.4`, clamped and reported score 6.4, recommended action `Monitor trends`
(0.07 does not exceed the 0.07 action threshold), and trend `up`, since
the reported 7.0% change exceeds the engine's 3% up-threshold. -/
theorem C6_housing_scenario :
    score_housing_permits 16050 15000 = (6.4, "Monitor trends", 7) ∧
    permits_trend ((score_housing_permits 16050 15000).2.2) = "up" := by
  refine ⟨score_housing_permits_scenario, ?_⟩
  rw [score_housing_permits_scenario]
  unfold permits_trend
  rw [if_pos (by norm_num : (3:ℚ) < 7)]

theorem roundTo1R_of_mul_eq (x : ℝ) (n : ℤ) (h : 10 * x = (n : ℝ)) :
    roundTo1R x = (n : ℝ) / 10 := by
  unfold roundTo1R
  rw [h, roundHalfEvenR_intCast]

/-- Counterexample to C9 as stated: the legacy diesel-only input-cost
scorer answers a too-short history with score 5.5, not the neutral 5.0. -/
theorem C9_counterexample :
    score_input_cost_legacy [] = (5.5, "Hedge 6 months", 4.00) ∧
    (5.5 : ℝ) ≠ 5.0 := by
  constructor
  · unfold score_input_cost_legacy
    rw [if_pos (by simp : ([] : List ℝ).length < 2)]
  · norm_num

/-- **C9 (amended).** The indicator scorers answer missing or too-short
history with a fixed default instead of failing: score 5.0 (and a change
value of 0, which the engine's trend thresholds turn into `stable`) for
housing permits, construction spending, employment and migration on a
non-positive prior, and for the combined input-cost scorer on empty price
series; the legacy diesel-only input-cost scorer however defaults to 5.5,
and the input-cost trend is `stable` whenever fewer than five observations
are available. -/
theorem C9_neutral_defaults :
    (∀ c p : ℚ, p ≤ 0 → score_housing_permits c p = (5.0, "Monitor trends", 0.0)) ∧
    (∀ c p : ℚ, p ≤ 0 → score_construction_spending c p = (5.0, "Selective investment", 0.0)) ∧
    (∀ c p : ℚ, p ≤ 0 → score_construction_employment c p = (5.0, "Stable operations", 0.0)) ∧
    (∀ pd : List (ℚ × ℚ), (pd.map Prod.fst).sum ≤ 0 →
      score_migration pd = (5.0, "Maintain footprint", 0.0)) ∧
    (∀ xs : List ℝ, ∀ b : ℝ, xs.length < 2 → score_input_cost_single xs b = 5.0) ∧
    score_input_cost [] [] = (5.0, "Hedge 6 months") ∧
    (∀ xs : List ℝ, xs.length < 2 →
      score_input_cost_legacy xs = (5.5, "Hedge 6 months", 4.00)) ∧
    permits_trend 0 = "stable" ∧
    spending_trend 0 = "stable" ∧
    employment_trend 0 = "stable" ∧
    migration_trend 0 = "stable" ∧
    (∀ gas diesel : List ℝ, gas.length < 5 → input_cost_trend gas diesel = "stable") := by
  refine ⟨?_, ?_, ?_, ?_, ?_, ?_, ?_, ?_, ?_, ?_, ?_, ?_⟩
  · intro c p h
    unfold score_housing_permits
    rw [if_pos h]
  · intro c p h
    unfold score_construction_spending
    rw [if_pos h]
  · intro c p h
    unfold score_construction_employment
    rw [if_pos h]
  · intro pd h
    unfold score_migration
    rw [if_pos h]
  · intro xs b h
    unfold score_input_cost_single
    rw [if_pos h]
  · unfold score_input_cost
    rw [if_pos rfl, if_pos rfl]
    dsimp only
    rw [show max 0 (min 10 ((5.0:ℝ) * 0.60 + 5.0 * 0.40)) = 5 by
      rw [min_def, max_def]; norm_num]
    rw [roundTo1R_of_mul_eq 5 50 (by norm_num)]
    rw [if_neg (by norm_num : ¬(7:ℝ) ≤ 5), if_pos (by norm_num : (4:ℝ) ≤ 5)]
    norm_num
  · intro xs h
    unfold score_input_cost_legacy
    rw [if_pos h]
  · rfl
  · rfl
  · rfl
  · unfold migration_trend
    rw [if_neg (by norm_num : ¬(0.3:ℚ) < 0), if_neg (by norm_num : ¬(0:ℚ) < -0.3)]
  · intro gas diesel h
    unfold input_cost_trend
    rw [if_neg (fun hc => absurd hc.1 (by omega))]

/-- Witness for C9 at concrete degenerate inputs. -/
theorem C9_neutral_defaults_witness :
    score_housing_permits 12345 0 = (5.0, "Monitor trends", 0.0) ∧
    score_construction_spending 12345 0 = (5.0, "Selective investment", 0.0) ∧
    score_construction_employment 12345 0 = (5.0, "Stable operations", 0.0) ∧
    score_migration [] = (5.0, "Maintain footprint", 0.0) ∧
    score_input_cost_single [3.5] 4 = 5.0 ∧
    score_input_cost_legacy [4.1] = (5.5, "Hedge 6 months", 4.00) ∧
    input_cost_trend [3.2] [4.0] = "stable" :=
  ⟨C9_neutral_defaults.1 12345 0 (le_refl 0),
   C9_neutral_defaults.2.1 12345 0 (le_refl 0),
   C9_neutral_defaults.2.2.1 12345 0 (le_refl 0),
   C9_neutral_defaults.2.2.2.1 [] (by simp),
   C9_neutral_defaults.2.2.2.2.1 [3.5] 4 (by simp),
   C9_neutral_defaults.2.2.2.2.2.2.1 [4.1] (by simp),
   C9_neutral_defaults.2.2.2.2.2.2.2.2.2.2.2 [3.2] [4.0] (by simp)⟩
